import Mathlib

/-!
# macos_window_runtime.c, embedded

The program is one C file that drives the Objective-C runtime: it looks up
selectors and classes, builds one class at run time, and sends messages through
`objc_msgSend` cast to a concrete function type at every call site.

The embedding keeps the program and the foreign runtime apart.

* The program (`sel`, `nsstring`, `createMenuBar`, `main`, ...) is a tree of
  foreign calls (`Prog`): every node is one call of the C source, in source
  order, and its continuation receives the word the runtime answered.
* The runtime is any `Runtime σ`: a state type with one transition per foreign
  call.  The bookkeeping functions of the runtime always return; a message
  dispatch hands control to a method of the receiver and may never hand it
  back (this is how `run`, the event loop, behaves).
* `exec` runs a program against a runtime and yields the trace of foreign
  calls with their answers, the way `main` ended, and the final runtime state.

Arguments of a call that are calls themselves are evaluated left to right.
-/

namespace Forbear

/-! ## Values -/

/-- A machine word as the runtime hands it back. -/
abbrev Word := Nat

/-- An object handle, class handle or `void *`; `0` is the null handle. -/
abbrev Ptr := Nat

/-- The C type `unsigned long` (line 13); no arithmetic is done on it. -/
abbrev NSUInteger := Nat

/-- The C type `long` (line 14). -/
abbrev NSInteger := Int

/-- Modelled from the spec: the header objc/objc.h is not in the repository;
`BOOL` is the runtime's boolean type. -/
abbrev BOOL := Bool

/-- Modelled from the spec: the constant `YES` of objc/objc.h, the true value
of `BOOL`. -/
def YES : BOOL := true

/-- Modelled from the spec: the constant `NO` of objc/objc.h, the false value
of `BOOL`. -/
def NO : BOOL := false

/-- The values of C `double` that the program handles.  The program stores
and passes the constants 0, 800 and 450 and never computes with them, so they
are kept as exact rationals. -/
abbrev double := ℚ

/-- The struct `NSPoint` (lines 16-19), over any type of scalars. -/
structure NSPoint (F : Type) where
  x : F
  y : F
  deriving DecidableEq, Repr

/-- The struct `NSSize` (lines 21-24). -/
structure NSSize (F : Type) where
  width : F
  height : F
  deriving DecidableEq, Repr

/-- The struct `NSRect` (lines 26-29). -/
structure NSRect (F : Type) where
  origin : NSPoint F
  size : NSSize F
  deriving DecidableEq, Repr

/-- The helper `NSMakeRect` (lines 31-38): four field stores. -/
def NSMakeRect {F : Type} (x y w h : F) : NSRect F :=
  { origin := { x := x, y := y }, size := { width := w, height := h } }

def NSApplicationActivationPolicyRegular : Int := 0

def NSBackingStoreBuffered : Nat := 2

def NSWindowStyleMaskBorderless : Nat := 0
def NSWindowStyleMaskTitled : Nat := 1 <<< 0
def NSWindowStyleMaskClosable : Nat := 1 <<< 1
def NSWindowStyleMaskMiniaturizable : Nat := 1 <<< 2
def NSWindowStyleMaskResizable : Nat := 1 <<< 3

/-- A selector value.  `token` is the word `sel_registerName` answered;
`name` is the string it was asked for, kept beside the token so that a trace
can be read.  The program never looks at either field. -/
structure SEL where
  name : String
  token : Word
  deriving DecidableEq, Repr

/-- The C types that occur in the function types `objc_msgSend` is cast to. -/
inductive CType where
  | void
  | id
  | Class
  | SEL
  | BOOL
  | NSInteger
  | NSUInteger
  | NSRect
  | cstring
  deriving DecidableEq, Repr

/-- A function type `ret (*)(params...)` as written in a cast of
`objc_msgSend`; `params` includes the receiver and the selector. -/
structure Signature where
  ret : CType
  params : List CType
  deriving DecidableEq, Repr

/-- An argument passed after the receiver and the selector. -/
inductive Arg where
  | id (p : Ptr)
  | sel (s : SEL)
  | cstring (s : String)
  | integer (i : NSInteger)
  | unsigned (n : NSUInteger)
  | bool (b : BOOL)
  | rect (r : NSRect double)
  deriving DecidableEq, Repr

/-- The C type of an argument value. -/
def Arg.ctype : Arg → CType
  | .id _ => .id
  | .sel _ => .SEL
  | .cstring _ => .cstring
  | .integer _ => .NSInteger
  | .unsigned _ => .NSUInteger
  | .bool _ => .BOOL
  | .rect _ => .NSRect

/-- The native functions whose address the program passes as an `IMP`. -/
inductive IMP where
  | applicationShouldTerminateAfterLastWindowClosed
  deriving DecidableEq, Repr

/-- One call of `objc_msgSend` through a cast to `sig`. -/
structure Message where
  sig : Signature
  target : Ptr
  op : SEL
  args : List Arg
  deriving DecidableEq, Repr

/-- The foreign functions other than `objc_msgSend`, with their arguments. -/
inductive Call where
  | objc_autoreleasePoolPush
  | objc_autoreleasePoolPop (pool : Ptr)
  | objc_getClass (name : String)
  | sel_registerName (name : String)
  | objc_allocateClassPair (superclass : Ptr) (name : String) (extraBytes : Nat)
  | class_addMethod (cls : Ptr) (name : SEL) (imp : IMP) (types : String)
  | objc_registerClassPair (cls : Ptr)
  deriving DecidableEq, Repr

/-! ## Programs -/

/-- A program over the foreign runtime: it returns, calls `abort()`, calls a
runtime function and goes on with its answer, or sends a message and goes on
with its answer. -/
inductive Prog (α : Type) : Type where
  | ret (a : α) : Prog α
  | abort : Prog α
  | call (c : Call) (k : Word → Prog α) : Prog α
  | send (m : Message) (k : Word → Prog α) : Prog α

/-- Sequencing of programs. -/
def Prog.bind {α β : Type} : Prog α → (α → Prog β) → Prog β
  | .ret a, f => f a
  | .abort, _ => .abort
  | .call c k, f => .call c (fun v => (k v).bind f)
  | .send m k, f => .send m (fun v => (k v).bind f)

instance : Monad Prog where
  pure := Prog.ret
  bind := Prog.bind

/-- One observable step of an execution. -/
inductive Event where
  | api (c : Call) (v : Word)
  | sent (m : Message) (v : Word)
  | blocked (m : Message)
  deriving DecidableEq, Repr

/-- How an execution ended: the program returned, it called `abort()`, or a
message dispatch never came back. -/
inductive Outcome (α : Type) where
  | returned (a : α)
  | aborted
  | blocked
  deriving DecidableEq, Repr

/-- The foreign runtime: a state and its reaction to every call. -/
structure Runtime (σ : Type) where
  api : Call → σ → Word × σ
  objc_msgSend : Message → σ → Option (Word × σ)

/-- What one execution leaves behind. -/
structure Run (σ α : Type) where
  trace : List Event
  outcome : Outcome α
  state : σ

/-- Execution of a program against a runtime. -/
def exec {σ α : Type} (rt : Runtime σ) : Prog α → σ → Run σ α
  | .ret a, s => { trace := [], outcome := .returned a, state := s }
  | .abort, s => { trace := [], outcome := .aborted, state := s }
  | .call c k, s =>
    let r := exec rt (k (rt.api c s).1) (rt.api c s).2
    { r with trace := .api c (rt.api c s).1 :: r.trace }
  | .send m k, s =>
    match rt.objc_msgSend m s with
    | none => { trace := [.blocked m], outcome := .blocked, state := s }
    | some (v, s') =>
      let r := exec rt (k v) s'
      { r with trace := .sent m v :: r.trace }

/-! ## The foreign functions as program steps -/

def objc_autoreleasePoolPush : Prog Ptr := .call .objc_autoreleasePoolPush .ret

def objc_autoreleasePoolPop (pool : Ptr) : Prog Unit :=
  .call (.objc_autoreleasePoolPop pool) (fun _ => .ret ())

def objc_getClass (name : String) : Prog Ptr := .call (.objc_getClass name) .ret

def sel_registerName (name : String) : Prog SEL :=
  .call (.sel_registerName name) (fun t => .ret { name := name, token := t })

def objc_allocateClassPair (superclass : Ptr) (name : String) (extraBytes : Nat) : Prog Ptr :=
  .call (.objc_allocateClassPair superclass name extraBytes) .ret

def class_addMethod (cls : Ptr) (name : SEL) (imp : IMP) (types : String) : Prog Unit :=
  .call (.class_addMethod cls name imp types) (fun _ => .ret ())

def objc_registerClassPair (cls : Ptr) : Prog Unit :=
  .call (.objc_registerClassPair cls) (fun _ => .ret ())

/-- The expression `((sig)objc_msgSend)(target, op, args...)`. -/
def objc_msgSend (sig : Signature) (target : Ptr) (op : SEL) (args : List Arg) : Prog Word :=
  .send { sig := sig, target := target, op := op, args := args } .ret

/-! ## The program -/

/-- Line 56. -/
def sel (name : String) : Prog SEL := sel_registerName name

/-- Lines 58-62. -/
def nsstring (cstr : String) : Prog Ptr := do
  let NSString ← objc_getClass "NSString"
  objc_msgSend ⟨.id, [.Class, .SEL, .cstring]⟩
    NSString (← sel "stringWithUTF8String:") [.cstring cstr]

/-- Lines 64-70. -/
def applicationShouldTerminateAfterLastWindowClosed (self : Ptr) (_cmd : SEL)
    (application : Ptr) : BOOL :=
  let _ := self
  let _ := _cmd
  let _ := application
  YES

/-- Lines 72-96. -/
def createMenuBar (app : Ptr) : Prog Unit := do
  let NSMenu ← objc_getClass "NSMenu"
  let NSMenuItem ← objc_getClass "NSMenuItem"

  let menubar ← objc_msgSend ⟨.id, [.Class, .SEL]⟩ NSMenu (← sel "new") []
  let appMenuItem ← objc_msgSend ⟨.id, [.Class, .SEL]⟩ NSMenuItem (← sel "new") []

  let _ ← objc_msgSend ⟨.void, [.id, .SEL, .id]⟩ menubar (← sel "addItem:") [.id appMenuItem]
  let _ ← objc_msgSend ⟨.void, [.id, .SEL, .id]⟩ app (← sel "setMainMenu:") [.id menubar]

  let appMenu ← objc_msgSend ⟨.id, [.Class, .SEL]⟩ NSMenu (← sel "new") []
  let _ ← objc_msgSend ⟨.void, [.id, .SEL, .id]⟩ appMenuItem (← sel "setSubmenu:")
    [.id appMenu]

  let quitTitle ← nsstring "Quit"
  let keyEquivalent ← nsstring "q"

  let quitItem ← objc_msgSend ⟨.id, [.Class, .SEL]⟩ NSMenuItem (← sel "alloc") []
  let quitItem ← objc_msgSend ⟨.id, [.id, .SEL, .id, .SEL, .id]⟩
    quitItem (← sel "initWithTitle:action:keyEquivalent:")
    [.id quitTitle, .sel (← sel "terminate:"), .id keyEquivalent]

  let _ ← objc_msgSend ⟨.void, [.id, .SEL, .id]⟩ quitItem (← sel "setTarget:") [.id app]
  let _ ← objc_msgSend ⟨.void, [.id, .SEL, .id]⟩ appMenu (← sel "addItem:") [.id quitItem]

/-- Lines 98-159. -/
def main : Prog Int := do
  let pool ← objc_autoreleasePoolPush

  let NSApplication ← objc_getClass "NSApplication"
  let app ← objc_msgSend ⟨.id, [.Class, .SEL]⟩ NSApplication (← sel "sharedApplication") []

  let _ ← objc_msgSend ⟨.BOOL, [.id, .SEL, .NSInteger]⟩
    app (← sel "setActivationPolicy:")
    [.integer NSApplicationActivationPolicyRegular]

  let NSObject ← objc_getClass "NSObject"
  let AppDelegate ← objc_allocateClassPair NSObject "MinimalAppDelegate" 0
  if AppDelegate ≠ 0 then
    class_addMethod
      AppDelegate (← sel "applicationShouldTerminateAfterLastWindowClosed:")
      .applicationShouldTerminateAfterLastWindowClosed "c@:@"
    objc_registerClassPair AppDelegate

  let delegate ← objc_msgSend ⟨.id, [.Class, .SEL]⟩ AppDelegate (← sel "new") []
  let _ ← objc_msgSend ⟨.void, [.id, .SEL, .id]⟩ app (← sel "setDelegate:") [.id delegate]

  createMenuBar app

  let NSWindow ← objc_getClass "NSWindow"

  let contentRect : NSRect double := NSMakeRect 0 0 800 450
  let styleMask : NSUInteger :=
    NSWindowStyleMaskTitled ||| NSWindowStyleMaskClosable |||
    NSWindowStyleMaskMiniaturizable ||| NSWindowStyleMaskResizable

  let window ← objc_msgSend ⟨.id, [.Class, .SEL]⟩ NSWindow (← sel "alloc") []
  let window ← objc_msgSend ⟨.id, [.id, .SEL, .NSRect, .NSUInteger, .NSUInteger, .BOOL]⟩
    window (← sel "initWithContentRect:styleMask:backing:defer:")
    [.rect contentRect, .unsigned styleMask, .unsigned NSBackingStoreBuffered, .bool NO]

  if window = 0 then
    Prog.abort

  let _ ← objc_msgSend ⟨.void, [.id, .SEL, .id]⟩ window (← sel "setTitle:")
    [.id (← nsstring "Runtime Cocoa Window")]
  let _ ← objc_msgSend ⟨.void, [.id, .SEL]⟩ window (← sel "center") []

  let contentView ← objc_msgSend ⟨.id, [.id, .SEL]⟩ window (← sel "contentView") []
  if contentView ≠ 0 then
    let _ ← objc_msgSend ⟨.void, [.id, .SEL, .BOOL]⟩ contentView (← sel "setWantsLayer:")
      [.bool YES]

  let _ ← objc_msgSend ⟨.void, [.id, .SEL, .id]⟩ window (← sel "makeKeyAndOrderFront:")
    [.id 0]
  let _ ← objc_msgSend ⟨.void, [.id, .SEL, .BOOL]⟩
    app (← sel "activateIgnoringOtherApps:") [.bool YES]

  let _ ← objc_msgSend ⟨.void, [.id, .SEL]⟩ app (← sel "run") []

  objc_autoreleasePoolPop pool
  return 0

/-! ## The selector registry -/

/-- Modelled from the spec: the selector registry behind sel_registerName,
which belongs to the foreign runtime and is not in the repository.  Section 3
describes it as a process-wide, append-only intern table whose entries are
created on the first lookup of a name and never destroyed.  The table lists
the names in the order of their first lookup; the token of a name is its
position in the table, counted from one, so that no token is null. -/
def intern (name : String) (table : List String) : Word × List String :=
  if name ∈ table then (table.indexOf name + 1, table)
  else (table.length + 1, table ++ [name])

/-! ## A runtime to run the program on -/

/-- How the test runtime is told to misbehave. -/
structure Script where
  /-- class names that objc_allocateClassPair refuses -/
  taken : List String
  /-- selectors whose dispatch answers the null handle -/
  nullOn : List String
  /-- selectors whose dispatch never returns -/
  blockOn : List String

/-- The state of the test runtime: the number of handles given out and the
selector table. -/
structure World where
  next : Nat
  selectors : List String
  deriving DecidableEq, Repr

/-- A small runtime.  Selectors are interned in the table; every other call
answers a fresh handle, never null, unless the script says otherwise; a
dispatch to the null handle answers null. -/
def scripted (sc : Script) : Runtime World where
  api c w :=
    match c with
    | .sel_registerName name =>
      ((intern name w.selectors).1, { w with selectors := (intern name w.selectors).2 })
    | .objc_allocateClassPair _ name _ =>
      if name ∈ sc.taken then (0, w) else (w.next + 1, { w with next := w.next + 1 })
    | _ => (w.next + 1, { w with next := w.next + 1 })
  objc_msgSend m w :=
    if m.op.name ∈ sc.blockOn then none
    else if m.target = 0 ∨ m.op.name ∈ sc.nullOn then some (0, w)
    else some (w.next + 1, { w with next := w.next + 1 })

/-- The runtime in which everything succeeds and every dispatch returns. -/
def cooperative : Runtime World := scripted { taken := [], nullOn := [], blockOn := [] }

/-- The runtime whose window construction answers the null handle. -/
def windowFails : Runtime World :=
  scripted { taken := [], nullOn := ["initWithContentRect:styleMask:backing:defer:"],
             blockOn := [] }

/-- The runtime in which the class name MinimalAppDelegate is already taken, so
that objc_allocateClassPair answers the null handle. -/
def nameTaken : Runtime World :=
  scripted { taken := ["MinimalAppDelegate"], nullOn := [], blockOn := [] }

/-- The state every test run starts from. -/
def boot : World := { next := 0, selectors := [] }

/-! ## All executions of a program -/

/-- The traces and outcomes a program can have, over all runtimes. -/
inductive Prog.Runs {α : Type} : Prog α → List Event → Outcome α → Prop where
  | ret (a : α) : Prog.Runs (.ret a) [] (.returned a)
  | abort : Prog.Runs .abort [] .aborted
  | call (c : Call) (k : Word → Prog α) (v : Word) {tr : List Event} {o : Outcome α} :
      Prog.Runs (k v) tr o → Prog.Runs (.call c k) (.api c v :: tr) o
  | sent (m : Message) (k : Word → Prog α) (v : Word) {tr : List Event} {o : Outcome α} :
      Prog.Runs (k v) tr o → Prog.Runs (.send m k) (.sent m v :: tr) o
  | blocked (m : Message) (k : Word → Prog α) : Prog.Runs (.send m k) [.blocked m] .blocked

/-- The property holds of the trace and outcome of every path through the
program, whatever the runtime answers. -/
def Prog.AllRuns {α : Type} : Prog α → (List Event → Outcome α → Prop) → Prop
  | .ret a, P => P [] (.returned a)
  | .abort, P => P [] .aborted
  | .call c k, P => ∀ v, (k v).AllRuns (fun tr o => P (.api c v :: tr) o)
  | .send m k, P =>
    P [.blocked m] .blocked ∧ ∀ v, (k v).AllRuns (fun tr o => P (.sent m v :: tr) o)

/-- The property holds of the messages of every complete path of the program,
one that ends in a return or in abort. -/
def Prog.AllEnds {α : Type} : Prog α → (List Message → Prop) → Prop
  | .ret _, Q => Q []
  | .abort, Q => Q []
  | .call _ k, Q => ∀ v, (k v).AllEnds Q
  | .send m k, Q => ∀ v, (k v).AllEnds (fun ms => Q (m :: ms))

/-! ## Reading a trace -/

def Event.isPush : Event → Bool
  | .api .objc_autoreleasePoolPush _ => true
  | _ => false

def Event.isPop : Event → Bool
  | .api (.objc_autoreleasePoolPop _) _ => true
  | _ => false

/-- The tokens that objc_autoreleasePoolPush answered. -/
def pushed : List Event → List Ptr
  | [] => []
  | .api .objc_autoreleasePoolPush v :: tr => v :: pushed tr
  | _ :: tr => pushed tr

/-- The tokens handed to objc_autoreleasePoolPop. -/
def popped : List Event → List Ptr
  | [] => []
  | .api (.objc_autoreleasePoolPop pool) _ :: tr => pool :: popped tr
  | _ :: tr => popped tr

/-- The answers the runtime gave to the dispatches of selector `name`, in
trace order; `none` stands for a dispatch that never returned. -/
def answers (name : String) : List Event → List (Option Word)
  | [] => []
  | .sent m v :: tr => if m.op.name = name then some v :: answers name tr else answers name tr
  | .blocked m :: tr => if m.op.name = name then none :: answers name tr else answers name tr
  | .api _ _ :: tr => answers name tr

/-- Some dispatch of selector `name` answered the null handle. -/
def returnedNull (name : String) (tr : List Event) : Bool :=
  (answers name tr).any (fun a => a == some 0)

/-- Some dispatch of selector `name` answered a handle that is not null. -/
def returnedNonNull (name : String) (tr : List Event) : Bool :=
  (answers name tr).any (fun a => a.isSome && a != some 0)

/-- Some dispatch of selector `name` came back. -/
def returnedFrom (name : String) (tr : List Event) : Bool :=
  (answers name tr).any Option.isSome

/-- The events that follow the first dispatch of selector `name`. -/
def eventsAfter (name : String) : List Event → List Event
  | [] => []
  | .sent m _ :: tr => if m.op.name = name then tr else eventsAfter name tr
  | .blocked m :: tr => if m.op.name = name then tr else eventsAfter name tr
  | .api _ _ :: tr => eventsAfter name tr

/-- The messages of a trace, in order, whether they came back or not. -/
def messages : List Event → List Message
  | [] => []
  | .sent m _ :: tr => m :: messages tr
  | .blocked m :: tr => m :: messages tr
  | .api _ _ :: tr => messages tr

/-- The selector names of the messages of a trace, in order. -/
def sentNames (tr : List Event) : List String :=
  (messages tr).map (fun m => m.op.name)

/-- The receivers of the messages with selector `name`, in order. -/
def targetsOf (name : String) (tr : List Event) : List Ptr :=
  ((messages tr).filter (fun m => m.op.name = name)).map (fun m => m.target)

/-- The argument lists of the messages with selector `name`, in order. -/
def argsOf (name : String) (tr : List Event) : List (List Arg) :=
  ((messages tr).filter (fun m => m.op.name = name)).map (fun m => m.args)

/-- The call sites a trace went through: selector name and the function type
objc_msgSend was cast to. -/
def callSites (tr : List Event) : List (String × Signature) :=
  (messages tr).map (fun m => (m.op.name, m.sig))

/-- The arguments of a message are those its cast declares: the first two
parameters are the receiver and the selector, the others are the C types of
the argument values, in order. -/
def Message.wellTyped (m : Message) : Prop :=
  (m.sig.params.take 2 = [.id, .SEL] ∨ m.sig.params.take 2 = [.Class, .SEL]) ∧
    m.sig.params.drop 2 = m.args.map Arg.ctype

instance (m : Message) : Decidable m.wellTyped := by
  unfold Message.wellTyped
  infer_instance

/-- No selector name is paired with two function types. -/
def OneSignaturePerSelector (sites : List (String × Signature)) : Prop :=
  ∀ a ∈ sites, ∀ b ∈ sites, a.1 = b.1 → a.2 = b.2

instance (sites : List (String × Signature)) : Decidable (OneSignaturePerSelector sites) := by
  unfold OneSignaturePerSelector
  infer_instance

/-- A use of the dynamic type builder: begin with its answer, attach, publish. -/
inductive BuilderStep where
  | begin (name : String) (draft : Ptr)
  | attach (draft : Ptr) (selector : String) (imp : IMP) (types : String)
  | publish (draft : Ptr)
  deriving DecidableEq, Repr

/-- The type-builder calls of a trace, in order. -/
def builderSteps : List Event → List BuilderStep
  | [] => []
  | .api (.objc_allocateClassPair _ name _) v :: tr => .begin name v :: builderSteps tr
  | .api (.class_addMethod cls op imp types) _ :: tr =>
    .attach cls op.name imp types :: builderSteps tr
  | .api (.objc_registerClassPair cls) _ :: tr => .publish cls :: builderSteps tr
  | _ :: tr => builderSteps tr

/-- The drafts that begin answered. -/
def beginAnswers : List Event → List Ptr
  | [] => []
  | .api (.objc_allocateClassPair _ _ _) v :: tr => v :: beginAnswers tr
  | _ :: tr => beginAnswers tr

/-- The builder calls that go with the answers of begin: nothing more after a
null draft, one attach and then one publish on a draft that is not null. -/
def builderStepsFor : List Ptr → List BuilderStep
  | [] => []
  | d :: _ =>
    if d = 0 then [.begin "MinimalAppDelegate" d]
    else [.begin "MinimalAppDelegate" d,
      .attach d "applicationShouldTerminateAfterLastWindowClosed:"
        .applicationShouldTerminateAfterLastWindowClosed "c@:@",
      .publish d]

/-- The word a trace ends with: the answer to its last call. -/
def lastAnswer (tr : List Event) : Word :=
  match tr.getLast? with
  | some (.api _ v) => v
  | some (.sent _ v) => v
  | _ => 0

/-! ## Lemmas -/

theorem exec_runs {σ α : Type} (rt : Runtime σ) (p : Prog α) :
    ∀ s : σ, p.Runs (exec rt p s).trace (exec rt p s).outcome := by
  induction p with
  | ret a => intro s; exact .ret a
  | abort => intro s; exact .abort
  | call c k ih => intro s; exact .call c k _ (ih _ _)
  | send m k ih =>
    intro s
    simp only [exec]
    cases hr : rt.objc_msgSend m s with
    | none => exact .blocked m k
    | some vs => exact .sent m k _ (ih _ _)

/-- A property of all paths of a program holds of each of its runs. -/
@[elab_as_elim]
theorem Prog.Runs.all {α : Type} {motive : List Event → Outcome α → Prop} {p : Prog α}
    {tr : List Event} {o : Outcome α} (h : p.Runs tr o) (hall : p.AllRuns motive) :
    motive tr o := by
  induction h generalizing motive with
  | ret a => exact hall
  | abort => exact hall
  | call c k v _ ih => exact ih (hall v)
  | sent m k v _ ih => exact ih (hall.2 v)
  | blocked m k => exact hall.1

theorem Prog.AllRuns.run_ret {α : Type} {a : α} {P : List Event → Outcome α → Prop}
    (h : P [] (.returned a)) : (Prog.ret a).AllRuns P := h

theorem Prog.AllRuns.run_abort {α : Type} {P : List Event → Outcome α → Prop}
    (h : P [] .aborted) : (Prog.abort : Prog α).AllRuns P := h

theorem Prog.AllRuns.run_call {α : Type} {c : Call} {k : Word → Prog α}
    {P : List Event → Outcome α → Prop}
    (h : ∀ v, (k v).AllRuns (fun tr o => P (.api c v :: tr) o)) : (Prog.call c k).AllRuns P := h

theorem Prog.AllRuns.run_send {α : Type} {m : Message} {k : Word → Prog α}
    {P : List Event → Outcome α → Prop}
    (h₁ : P [.blocked m] .blocked)
    (h₂ : ∀ v, (k v).AllRuns (fun tr o => P (.sent m v :: tr) o)) : (Prog.send m k).AllRuns P :=
  ⟨h₁, h₂⟩

theorem Prog.AllRuns.run_ite {α : Type} {c : Prop} [Decidable c] {p q : Prog α}
    {P : List Event → Outcome α → Prop}
    (h₁ : c → p.AllRuns P) (h₂ : ¬ c → q.AllRuns P) :
    (if c then p else q).AllRuns P := by
  split
  · exact h₁ ‹_›
  · exact h₂ ‹_›

theorem Prog.AllEnds.exists {α : Type} (p : Prog α) :
    ∀ Q : List Message → Prop, p.AllEnds Q → ∃ ms, Q ms := by
  induction p with
  | ret a => intro Q h; exact ⟨[], h⟩
  | abort => intro Q h; exact ⟨[], h⟩
  | call c k ih => intro Q h; exact ih 0 Q (h 0)
  | send m k ih =>
    intro Q h
    obtain ⟨ms, hms⟩ := ih 0 _ (h 0)
    exact ⟨m :: ms, hms⟩

/-- A property of message lists that passes to shorter lists holds of every
run as soon as it holds of the complete paths. -/
theorem Prog.AllEnds.allRuns {α : Type} (p : Prog α) :
    ∀ Q : List Message → Prop, (∀ ms more, Q (ms ++ more) → Q ms) → p.AllEnds Q →
      p.AllRuns (fun tr _ => Q (messages tr)) := by
  induction p with
  | ret a => intro Q _ h; exact h
  | abort => intro Q _ h; exact h
  | call c k ih => intro Q hQ h v; exact ih v Q hQ (h v)
  | send m k ih =>
    intro Q hQ h
    constructor
    · obtain ⟨ms, hms⟩ := Prog.AllEnds.exists (k 0) _ (h 0)
      exact hQ [m] ms hms
    · intro v
      exact ih v (fun ms => Q (m :: ms)) (fun ms more hq => hQ (m :: ms) more hq) (h v)

theorem Prog.AllEnds.end_ret {α : Type} {a : α} {Q : List Message → Prop}
    (h : Q []) : (Prog.ret a).AllEnds Q := h

theorem Prog.AllEnds.end_abort {α : Type} {Q : List Message → Prop}
    (h : Q []) : (Prog.abort : Prog α).AllEnds Q := h

theorem Prog.AllEnds.end_call {α : Type} {c : Call} {k : Word → Prog α}
    {Q : List Message → Prop} (h : ∀ v, (k v).AllEnds Q) : (Prog.call c k).AllEnds Q := h

theorem Prog.AllEnds.end_send {α : Type} {m : Message} {k : Word → Prog α}
    {Q : List Message → Prop} (h : ∀ v, (k v).AllEnds (fun ms => Q (m :: ms))) :
    (Prog.send m k).AllEnds Q := h

theorem Prog.AllEnds.end_ite {α : Type} {c : Prop} [Decidable c] {p q : Prog α}
    {Q : List Message → Prop} (h₁ : c → p.AllEnds Q) (h₂ : ¬ c → q.AllEnds Q) :
    (if c then p else q).AllEnds Q := by
  split
  · exact h₁ ‹_›
  · exact h₂ ‹_›

theorem intern_token (name : String) (table : List String) :
    (intern name table).1 = (intern name table).2.indexOf name + 1 := by
  unfold intern
  split
  · rfl
  · rename_i h
    simp [List.indexOf_append_of_not_mem h]

theorem intern_mem (name : String) (table : List String) :
    name ∈ (intern name table).2 := by
  unfold intern
  split <;> simp_all

theorem intern_extends (name : String) (table : List String) :
    ∃ more, (intern name table).2 = table ++ more := by
  unfold intern
  split
  · exact ⟨[], by simp⟩
  · exact ⟨[name], rfl⟩

/-- Running any program on the test runtime only appends to the selector table. -/
theorem scripted_extends (sc : Script) {α : Type} (p : Prog α) :
    ∀ w : World, ∃ more, (exec (scripted sc) p w).state.selectors = w.selectors ++ more := by
  induction p with
  | ret a => intro w; exact ⟨[], by simp [exec]⟩
  | abort => intro w; exact ⟨[], by simp [exec]⟩
  | call c k ih =>
    intro w
    obtain ⟨more, hm⟩ := ih ((scripted sc).api c w).1 ((scripted sc).api c w).2
    have hstep : ∃ m₁, ((scripted sc).api c w).2.selectors = w.selectors ++ m₁ := by
      cases c with
      | sel_registerName name => exact intern_extends name w.selectors
      | objc_allocateClassPair sup name extra =>
        refine ⟨[], ?_⟩
        simp only [scripted]
        split <;> simp
      | _ => exact ⟨[], by simp [scripted]⟩
    obtain ⟨m₁, h₁⟩ := hstep
    refine ⟨m₁ ++ more, ?_⟩
    simp only [exec]
    rw [hm, h₁, List.append_assoc]
  | send m k ih =>
    intro w
    simp only [exec]
    cases hr : (scripted sc).objc_msgSend m w with
    | none => exact ⟨[], by simp⟩
    | some vs =>
      obtain ⟨v, w'⟩ := vs
      have hw : w'.selectors = w.selectors := by
        simp only [scripted] at hr
        split at hr
        · cases hr
        · split at hr <;> cases hr <;> rfl
      obtain ⟨more, hm⟩ := ih v w'
      exact ⟨more, by simp only [hm, hw]⟩

theorem exec_sel (sc : Script) (name : String) (w : World) :
    (exec (scripted sc) (sel name) w).outcome =
        .returned { name := name, token := (intern name w.selectors).1 } ∧
      (exec (scripted sc) (sel name) w).state.selectors = (intern name w.selectors).2 := by
  constructor <;> rfl

set_option maxRecDepth 100000 in
set_option maxHeartbeats 4000000 in
/-- Every message of main passes arguments of the types its cast declares. -/
theorem main_arguments_match_casts (σ : Type) (rt : Runtime σ) (s : σ) :
    ∀ m ∈ messages (exec rt main s).trace, m.wellTyped := by
  refine Prog.Runs.all (exec_runs rt main s) ?_
  refine Prog.AllEnds.allRuns main (fun ms => ∀ m ∈ ms, m.wellTyped) ?_ ?_
  · intro ms more h m hm
    exact h m (List.mem_append_left _ hm)
  · repeat' (first
      | (apply Prog.AllEnds.end_call; intro _)
      | (apply Prog.AllEnds.end_send; intro _)
      | (apply Prog.AllEnds.end_ite <;> intro _)
      | apply Prog.AllEnds.end_ret
      | apply Prog.AllEnds.end_abort)
    all_goals exact of_decide_eq_true rfl

/-! ## C1: window construction failure aborts, success and a returning run exit with 0 -/

set_option maxRecDepth 100000 in
set_option maxHeartbeats 4000000 in
/-- C1. Whatever the runtime answers: if the dispatch of
initWithContentRect:styleMask:backing:defer: answers the null handle, main
ends in abort, that dispatch is the last foreign call of the execution, and
none of setTitle:, center, contentView, setWantsLayer:, makeKeyAndOrderFront:,
activateIgnoringOtherApps:, run is sent at all; if it answers a handle that is
not null and the dispatch of run comes back, main returns 0.  Main returns
only 0, and only on that second path; it aborts only on the first. -/
theorem C1_window_failure_aborts_else_exit_zero (σ : Type) (rt : Runtime σ) (s : σ) :
    (returnedNull "initWithContentRect:styleMask:backing:defer:" (exec rt main s).trace = true →
      (exec rt main s).outcome = .aborted ∧
      eventsAfter "initWithContentRect:styleMask:backing:defer:" (exec rt main s).trace = [] ∧
      ∀ n ∈ ["setTitle:", "center", "contentView", "setWantsLayer:", "makeKeyAndOrderFront:",
        "activateIgnoringOtherApps:", "run"], n ∉ sentNames (exec rt main s).trace) ∧
    (returnedNonNull "initWithContentRect:styleMask:backing:defer:" (exec rt main s).trace = true →
      returnedFrom "run" (exec rt main s).trace = true →
      (exec rt main s).outcome = .returned 0) ∧
    ((exec rt main s).outcome = .returned 0 ∨ (exec rt main s).outcome = .aborted ∨
      (exec rt main s).outcome = .blocked) ∧
    ((exec rt main s).outcome = .returned 0 →
      returnedNonNull "initWithContentRect:styleMask:backing:defer:" (exec rt main s).trace = true ∧
      returnedFrom "run" (exec rt main s).trace = true) ∧
    ((exec rt main s).outcome = .aborted →
      returnedNull "initWithContentRect:styleMask:backing:defer:" (exec rt main s).trace
        = true) := by
  refine Prog.Runs.all (exec_runs rt main s) ?_
  repeat' (first
    | (apply Prog.AllRuns.run_call; intro _)
    | (apply Prog.AllRuns.run_send <;> [skip; intro _])
    | (apply Prog.AllRuns.run_ite <;> intro h <;>
        first
        | subst h
        | (have h' := not_not.mp h; subst h')
        | (obtain ⟨_, rfl⟩ := Nat.exists_eq_succ_of_ne_zero h))
    | apply Prog.AllRuns.run_ret
    | apply Prog.AllRuns.run_abort)
  all_goals exact of_decide_eq_true rfl

/-! ## C2: the pool token is released once when main returns, not when it aborts -/

/-- C2, counterexample. On the runtime whose window construction answers null,
main ends in abort, the enter call answered the token 1, and no exit call is
made at all: the token is released zero times on that exit path. -/
theorem C2_counterexample_abort_path_never_pops :
    (exec windowFails main boot).outcome = .aborted ∧
    pushed (exec windowFails main boot).trace = [1] ∧
    popped (exec windowFails main boot).trace = [] := by
  decide

set_option maxRecDepth 100000 in
set_option maxHeartbeats 4000000 in
/-- C2, amended. In every execution of main the region is entered exactly
once.  When main returns, the tokens handed to exit are exactly the one token
that enter answered: it is released once, not zero times and not twice.  On
every other way out (abort after a failed window construction, or a dispatch
that never comes back) exit is not called. -/
theorem C2_pool_released_once_on_return (σ : Type) (rt : Runtime σ) (s : σ) :
    (pushed (exec rt main s).trace).length = 1 ∧
    ((exec rt main s).outcome = .returned 0 →
      popped (exec rt main s).trace = pushed (exec rt main s).trace) ∧
    ((exec rt main s).outcome ≠ .returned 0 → popped (exec rt main s).trace = []) := by
  refine Prog.Runs.all (exec_runs rt main s) ?_
  repeat' (first
    | (apply Prog.AllRuns.run_call; intro _)
    | (apply Prog.AllRuns.run_send <;> [skip; intro _])
    | (apply Prog.AllRuns.run_ite <;> intro _)
    | apply Prog.AllRuns.run_ret
    | apply Prog.AllRuns.run_abort)
  all_goals
    refine ⟨rfl, fun h => ?_, fun h => ?_⟩ <;> first | rfl | cases h | exact absurd rfl h

/-! ## C3: after a failed begin there is no attach and no publish, but new is still sent -/

/-- C3, counterexample. On the runtime in which the class name is taken, begin
answers the null draft, and main still sends new to that null descriptor (it is
the first receiver of new) and passes the answer of that dispatch to
setDelegate:. -/
theorem C3_counterexample_new_sent_to_null_draft :
    beginAnswers (exec nameTaken main boot).trace = [0] ∧
    (targetsOf "new" (exec nameTaken main boot).trace).take 1 = [0] ∧
    (answers "new" (exec nameTaken main boot).trace).take 1 = [some 0] ∧
    argsOf "setDelegate:" (exec nameTaken main boot).trace = [[.id 0]] := by
  decide

set_option maxRecDepth 100000 in
set_option maxHeartbeats 4000000 in
/-- C3, amended. When begin answers the null draft, main makes no attach and
no publish: begin is its only type-builder call.  It does go on to send new to
the null descriptor: the first message with selector new has the null handle
as its receiver.  The argument of setDelegate: is the answer of that first
dispatch of new. -/
theorem C3_null_draft_skips_attach_and_publish (σ : Type) (rt : Runtime σ) (s : σ)
    (h : beginAnswers (exec rt main s).trace = [0]) :
    builderSteps (exec rt main s).trace = [.begin "MinimalAppDelegate" 0] ∧
    (targetsOf "new" (exec rt main s).trace).take 1 = [0] ∧
    argsOf "setDelegate:" (exec rt main s).trace =
      ((answers "new" (exec rt main s).trace).take 1).filterMap
        (fun a => a.map (fun d => [Arg.id d])) := by
  revert h
  refine Prog.Runs.all (exec_runs rt main s) ?_
  repeat' (first
    | (apply Prog.AllRuns.run_call; intro _)
    | (apply Prog.AllRuns.run_send <;> [skip; intro _])
    | (apply Prog.AllRuns.run_ite <;> intro h <;>
        first
        | subst h
        | (have h' := not_not.mp h; subst h')
        | (obtain ⟨_, rfl⟩ := Nat.exists_eq_succ_of_ne_zero h))
    | apply Prog.AllRuns.run_ret
    | apply Prog.AllRuns.run_abort)
  all_goals
    intro h
    first
    | exact absurd h (of_decide_eq_true rfl)
    | exact ⟨rfl, of_decide_eq_true rfl, rfl⟩

/-- C3, witness: on the runtime in which the class name is taken, begin
answers the null draft, it is the only type-builder call, and the first new
goes to the null handle. -/
theorem C3_null_draft_witness :
    beginAnswers (exec nameTaken main boot).trace = [0] ∧
    builderSteps (exec nameTaken main boot).trace = [.begin "MinimalAppDelegate" 0] ∧
    (targetsOf "new" (exec nameTaken main boot).trace).take 1 = [0] :=
  ⟨by decide, (C3_null_draft_skips_attach_and_publish World nameTaken boot (by decide)).1,
    (C3_null_draft_skips_attach_and_publish World nameTaken boot (by decide)).2.1⟩

/-! ## C4: the type builder is used once, begin, one attach, one publish -/

set_option maxRecDepth 100000 in
set_option maxHeartbeats 4000000 in
/-- The type-builder calls of any execution of main are those that go with the
answer of begin, and begin is called at most once: once when the two
dispatches before it have come back, and not at all otherwise. -/
theorem main_builderSteps (σ : Type) (rt : Runtime σ) (s : σ) :
    builderSteps (exec rt main s).trace = builderStepsFor (beginAnswers (exec rt main s).trace) ∧
    (beginAnswers (exec rt main s).trace).length ≤ 1 ∧
    (returnedFrom "setActivationPolicy:" (exec rt main s).trace = true →
      (beginAnswers (exec rt main s).trace).length = 1) ∧
    (returnedFrom "setActivationPolicy:" (exec rt main s).trace = false →
      beginAnswers (exec rt main s).trace = []) := by
  refine Prog.Runs.all (exec_runs rt main s) ?_
  repeat' (first
    | (apply Prog.AllRuns.run_call; intro _)
    | (apply Prog.AllRuns.run_send <;> [skip; intro _])
    | (apply Prog.AllRuns.run_ite <;> intro h <;>
        first
        | subst h
        | (have h' := not_not.mp h; subst h')
        | (obtain ⟨_, rfl⟩ := Nat.exists_eq_succ_of_ne_zero h))
    | apply Prog.AllRuns.run_ret
    | apply Prog.AllRuns.run_abort)
  all_goals exact ⟨rfl, of_decide_eq_true rfl, of_decide_eq_true rfl, of_decide_eq_true rfl⟩

/-- C4. In every execution of main that reaches the type builder, that is, in
which the two dispatches before it (sharedApplication, setActivationPolicy:)
have come back, the type-builder calls are, in this order and with nothing
else: begin, once; and when begin answered a draft d that is not null, one
attach on d of the selector applicationShouldTerminateAfterLastWindowClosed:,
then one publish on d.  So the attach comes strictly before the publish, both
are on the draft begin answered, and no attach follows the publish.  An
execution held in one of those two dispatches makes no type-builder call. -/
theorem C4_type_builder_used_once (σ : Type) (rt : Runtime σ) (s : σ) :
    (returnedFrom "setActivationPolicy:" (exec rt main s).trace = true →
      builderSteps (exec rt main s).trace = [.begin "MinimalAppDelegate" 0] ∨
      ∃ d, d ≠ 0 ∧ builderSteps (exec rt main s).trace =
        [.begin "MinimalAppDelegate" d,
          .attach d "applicationShouldTerminateAfterLastWindowClosed:"
            .applicationShouldTerminateAfterLastWindowClosed "c@:@",
          .publish d]) ∧
    (returnedFrom "setActivationPolicy:" (exec rt main s).trace = false →
      builderSteps (exec rt main s).trace = []) := by
  obtain ⟨h₁, -, h₃, h₄⟩ := main_builderSteps σ rt s
  rw [h₁]
  cases hb : beginAnswers (exec rt main s).trace with
  | nil =>
    constructor
    · intro h
      have := h₃ h
      rw [hb] at this
      simp at this
    · intro _
      rfl
  | cons d ds =>
    constructor
    · intro _
      by_cases h0 : d = 0
      · subst h0
        exact Or.inl rfl
      · exact Or.inr ⟨d, h0, by simp [builderStepsFor, h0]⟩
    · intro h
      have := h₄ h
      rw [hb] at this
      simp at this

/-- C4, the path on which begin answers a draft: on the cooperative runtime
the two dispatches before the builder come back, and the builder calls are not
the lone begin of the null case. -/
theorem C4_type_builder_witness :
    returnedFrom "setActivationPolicy:" (exec cooperative main boot).trace = true ∧
    (builderSteps (exec cooperative main boot).trace = [.begin "MinimalAppDelegate" 0] ∨
      ∃ d, d ≠ 0 ∧ builderSteps (exec cooperative main boot).trace =
        [.begin "MinimalAppDelegate" d,
          .attach d "applicationShouldTerminateAfterLastWindowClosed:"
            .applicationShouldTerminateAfterLastWindowClosed "c@:@",
          .publish d]) :=
  ⟨by decide, (C4_type_builder_used_once World cooperative boot).1 (by decide)⟩

/-! ## C5: one region around everything -/

set_option maxRecDepth 100000 in
set_option maxHeartbeats 4000000 in
/-- C5. In every execution of main in which the window construction answers a
handle that is not null and the dispatch of run comes back, the trace is: the
enter call, answering a token p; then a middle part; then the exit call, on
that same p.  The middle part holds no enter and no exit, so enter is the first
foreign call, exit the last, exactly one region is opened, and every selector
lookup, class lookup, type-builder call and message dispatch, those of
createMenuBar and nsstring included, lies strictly between the two. -/
theorem C5_single_region_brackets_everything (σ : Type) (rt : Runtime σ) (s : σ)
    (hw : returnedNonNull "initWithContentRect:styleMask:backing:defer:"
      (exec rt main s).trace = true)
    (hr : returnedFrom "run" (exec rt main s).trace = true) :
    ∃ p u mid, (exec rt main s).trace =
        .api .objc_autoreleasePoolPush p :: (mid ++ [.api (.objc_autoreleasePoolPop p) u]) ∧
      (∀ e ∈ mid, e.isPush = false ∧ e.isPop = false) ∧
      messages mid = messages (exec rt main s).trace ∧
      builderSteps mid = builderSteps (exec rt main s).trace := by
  have key :
      (returnedNonNull "initWithContentRect:styleMask:backing:defer:"
          (exec rt main s).trace = true →
        returnedFrom "run" (exec rt main s).trace = true →
        (exec rt main s).outcome = .returned 0) ∧
      ((exec rt main s).outcome = .returned 0 →
        (exec rt main s).trace =
            .api .objc_autoreleasePoolPush ((pushed (exec rt main s).trace).headD 0) ::
              ((exec rt main s).trace.tail.dropLast ++
                [.api (.objc_autoreleasePoolPop ((pushed (exec rt main s).trace).headD 0))
                  (lastAnswer (exec rt main s).trace)]) ∧
          (exec rt main s).trace.tail.dropLast.all (fun e => !e.isPush && !e.isPop) = true ∧
          messages (exec rt main s).trace.tail.dropLast = messages (exec rt main s).trace ∧
          builderSteps (exec rt main s).trace.tail.dropLast =
            builderSteps (exec rt main s).trace) := by
    refine Prog.Runs.all (exec_runs rt main s) ?_
    repeat' (first
      | (apply Prog.AllRuns.run_call; intro _)
      | (apply Prog.AllRuns.run_send <;> [skip; intro _])
      | (apply Prog.AllRuns.run_ite <;> intro h <;>
          first
          | subst h
          | (have h' := not_not.mp h; subst h')
          | (obtain ⟨_, rfl⟩ := Nat.exists_eq_succ_of_ne_zero h))
      | apply Prog.AllRuns.run_ret
      | apply Prog.AllRuns.run_abort)
    all_goals
      refine ⟨of_decide_eq_true rfl, fun h => ?_⟩
      first
      | exact ⟨rfl, rfl, rfl, rfl⟩
      | cases h
  obtain ⟨h₁, h₂, h₃, h₄⟩ := key.2 (key.1 hw hr)
  refine ⟨_, _, _, h₁, ?_, h₃, h₄⟩
  intro e he
  have := List.all_eq_true.mp h₂ e he
  simpa using this

/-- C5, witness: the cooperative runtime. -/
theorem C5_single_region_witness :
    returnedNonNull "initWithContentRect:styleMask:backing:defer:"
        (exec cooperative main boot).trace = true ∧
      returnedFrom "run" (exec cooperative main boot).trace = true ∧
      ∃ p u mid, (exec cooperative main boot).trace =
          .api .objc_autoreleasePoolPush p :: (mid ++ [.api (.objc_autoreleasePoolPop p) u]) ∧
        (∀ e ∈ mid, e.isPush = false ∧ e.isPop = false) ∧
        messages mid = messages (exec cooperative main boot).trace ∧
        builderSteps mid = builderSteps (exec cooperative main boot).trace :=
  ⟨by decide, by decide,
    C5_single_region_brackets_everything World cooperative boot (by decide) (by decide)⟩

/-! ## C7: the selector registry -/

/-- C7. On the modelled registry, whatever the table holds to begin with and
whatever program runs in between: a call of sel and a later call of sel both
return, and their tokens are equal exactly when the two names are equal.  So
two calls with one name give equal tokens and calls with distinct names give
distinct tokens. -/
theorem C7_sel_tokens_equal_iff_names_equal (sc : Script) (w : World) (n₁ n₂ : String)
    (between : Prog Unit) :
    ∃ a b,
      (exec (scripted sc) (sel n₁) w).outcome = .returned a ∧
      (exec (scripted sc) (sel n₂)
        (exec (scripted sc) between (exec (scripted sc) (sel n₁) w).state).state).outcome
          = .returned b ∧
      (a.token = b.token ↔ n₁ = n₂) := by
  obtain ⟨ho₁, hs₁⟩ := exec_sel sc n₁ w
  obtain ⟨more, hm⟩ := scripted_extends sc between (exec (scripted sc) (sel n₁) w).state
  obtain ⟨ho₂, -⟩ := exec_sel sc n₂
    (exec (scripted sc) between (exec (scripted sc) (sel n₁) w).state).state
  refine ⟨_, _, ho₁, ho₂, ?_⟩
  simp only
  rw [hm, hs₁]
  set T := (intern n₁ w.selectors).2 with hT
  have hmem₁ : n₁ ∈ T := intern_mem n₁ w.selectors
  obtain ⟨more₂, hm₂⟩ := intern_extends n₂ (T ++ more)
  have h₁ : (intern n₁ w.selectors).1 = (intern n₂ (T ++ more)).2.indexOf n₁ + 1 := by
    rw [intern_token, hm₂, List.indexOf_append_of_mem (List.mem_append_left _ hmem₁),
      List.indexOf_append_of_mem hmem₁]
  rw [h₁, intern_token n₂]
  have hmemA : n₁ ∈ (intern n₂ (T ++ more)).2 := by
    rw [hm₂]; exact List.mem_append_left _ (List.mem_append_left _ hmem₁)
  have hmemB : n₂ ∈ (intern n₂ (T ++ more)).2 := intern_mem _ _
  constructor
  · intro h
    exact (List.indexOf_inj hmemA hmemB).mp (Nat.succ_injective h)
  · intro h
    rw [h]

/-! ## C8: NSMakeRect and the rectangle of the window -/

set_option maxRecDepth 100000 in
set_option maxHeartbeats 4000000 in
/-- C8. For scalars of any type, NSMakeRect x y w h has origin.x = x,
origin.y = y, size.width = w and size.height = h.  In every execution of main
the first argument after the selector of each window construction dispatch is
the rectangle with origin (0, 0) and size (800, 450), passed by value; and an
execution that is not held in a dispatch makes that dispatch exactly once. -/
theorem C8_makeRect_fields_and_window_rect :
    (∀ (F : Type) (x y w h : F),
      (NSMakeRect x y w h).origin.x = x ∧ (NSMakeRect x y w h).origin.y = y ∧
      (NSMakeRect x y w h).size.width = w ∧ (NSMakeRect x y w h).size.height = h ∧
      NSMakeRect x y w h = ⟨⟨x, y⟩, ⟨w, h⟩⟩) ∧
    ∀ (σ : Type) (rt : Runtime σ) (s : σ),
      (∀ a ∈ argsOf "initWithContentRect:styleMask:backing:defer:" (exec rt main s).trace,
        a.head? = some (.rect ⟨⟨0, 0⟩, ⟨800, 450⟩⟩)) ∧
      ((exec rt main s).outcome ≠ .blocked →
        (argsOf "initWithContentRect:styleMask:backing:defer:" (exec rt main s).trace).length
          = 1) := by
  refine ⟨fun F x y w h => ⟨rfl, rfl, rfl, rfl, rfl⟩, fun σ rt s => ?_⟩
  refine Prog.Runs.all (exec_runs rt main s) ?_
  repeat' (first
    | (apply Prog.AllRuns.run_call; intro _)
    | (apply Prog.AllRuns.run_send <;> [skip; intro _])
    | (apply Prog.AllRuns.run_ite <;> intro _)
    | apply Prog.AllRuns.run_ret
    | apply Prog.AllRuns.run_abort)
  all_goals exact of_decide_eq_true rfl

/-! ## C9: the callback answers YES -/

/-- C9. The callback returns YES, the true value of BOOL, for every receiver,
selector and application argument, null handles included; any two calls give
the same result, whatever their arguments. -/
theorem C9_callback_always_yes :
    (∀ (self : Ptr) (_cmd : SEL) (application : Ptr),
      applicationShouldTerminateAfterLastWindowClosed self _cmd application = YES) ∧
    (∀ (_cmd : SEL), applicationShouldTerminateAfterLastWindowClosed 0 _cmd 0 = YES) ∧
    YES = true ∧ YES ≠ NO ∧
    ∀ (self self' : Ptr) (_cmd _cmd' : SEL) (application application' : Ptr),
      applicationShouldTerminateAfterLastWindowClosed self _cmd application =
        applicationShouldTerminateAfterLastWindowClosed self' _cmd' application' :=
  ⟨fun _ _ _ => rfl, fun _ => rfl, rfl, by decide, fun _ _ _ _ _ _ => rfl⟩

/-! ## C10: one function type per selector -/

set_option maxRecDepth 100000 in
set_option maxHeartbeats 4000000 in
/-- On every complete path of main, no selector is sent through two different
function types. -/
theorem main_sites :
    main.AllEnds (fun ms => OneSignaturePerSelector (ms.map (fun m => (m.op.name, m.sig)))) := by
  repeat' (first
    | (apply Prog.AllEnds.end_call; intro _)
    | (apply Prog.AllEnds.end_send; intro _)
    | (apply Prog.AllEnds.end_ite <;> intro _)
    | apply Prog.AllEnds.end_ret
    | apply Prog.AllEnds.end_abort)
  all_goals exact of_decide_eq_true rfl

/-- C10. In every execution of main, any two messages with the same selector
name are sent through the same cast of objc_msgSend: same parameter types in
the same order, same return type.  The execution on the cooperative runtime
goes through all 26 dispatches of nsstring, createMenuBar and main, among them
new four times, alloc twice and addItem: twice. -/
theorem C10_signature_is_function_of_selector :
    (∀ (σ : Type) (rt : Runtime σ) (s : σ),
      ∀ a ∈ callSites (exec rt main s).trace, ∀ b ∈ callSites (exec rt main s).trace,
        a.1 = b.1 → a.2 = b.2) ∧
    (callSites (exec cooperative main boot).trace).length = 26 ∧
    (callSites (exec cooperative main boot).trace).count ("new", ⟨.id, [.Class, .SEL]⟩) = 4 ∧
    (callSites (exec cooperative main boot).trace).count ("alloc", ⟨.id, [.Class, .SEL]⟩) = 2 ∧
    (callSites (exec cooperative main boot).trace).count
      ("addItem:", ⟨.void, [.id, .SEL, .id]⟩) = 2 := by
  refine ⟨fun σ rt s => ?_, by decide, by decide, by decide, by decide⟩
  refine Prog.Runs.all (exec_runs rt main s) ?_
  refine Prog.AllEnds.allRuns main
    (fun ms => OneSignaturePerSelector (ms.map (fun m => (m.op.name, m.sig)))) ?_ main_sites
  intro ms more h a ha b hb
  exact h a (by rw [List.map_append]; exact List.mem_append_left _ ha)
    b (by rw [List.map_append]; exact List.mem_append_left _ hb)

end Forbear
